import Mathlib

/-!
Shallow embedding of the BI-System table-model core (src/data_models.py):
the two backend table models (PandasTableModel, PolarsTableModel), the
SortFilterProxyModel with its filterAcceptsRow / apply_filter predicate
evaluator, and the sort method of both models.  Machine details of the host
GUI toolkit (Qt roles, signals) are modelled as plain data.
-/

namespace BISystem

/-- Calendar date, as produced by the date() method of a parsed datetime. -/
structure Date where
  y : Nat
  m : Nat
  d : Nat
deriving DecidableEq, Repr

/-- Datetime value: calendar date plus time of day. -/
structure DateTime where
  date : Date
  hh : Nat
  mi : Nat
  ss : Nat
deriving DecidableEq, Repr

/-- Boolean rendering of the comparison date1 <= date2 on calendar dates
(year, then month, then day), matching the comparison of datetime.date
objects in Python. -/
def Date.leb (a b : Date) : Bool :=
  if a.y < b.y then true
  else if b.y < a.y then false
  else if a.m < b.m then true
  else if b.m < a.m then false
  else a.d ≤ b.d

/-- Semantic column types of the abstract dataset of the spec, each
representable in both backends. -/
inductive ColTy where
  | tint
  | tfloat
  | ttext
  | tbool
  | tdate
  | tdatetime
deriving DecidableEq, Repr

/-- Cell of the abstract dataset: a typed scalar or null.  Float cells are
modelled as rationals (exact values of the doubles the program handles). -/
inductive Cell where
  | cnull
  | cint (n : Int)
  | cfloat (q : Rat)
  | ctext (s : String)
  | cbool (b : Bool)
  | cdate (d : Date)
  | cdatetime (dt : DateTime)
deriving DecidableEq, Repr

/-- Which cells a column of the given type may hold so that the dataset is
representable in both backends: values of the matching type, plus null in
float, text, date and datetime columns.  Pandas int64 and bool columns
cannot hold nulls, so null int and bool cells are not representable. -/
def cellOk : ColTy → Cell → Bool
  | ColTy.tint, Cell.cint _ => true
  | ColTy.tfloat, Cell.cfloat _ => true
  | ColTy.tfloat, Cell.cnull => true
  | ColTy.ttext, Cell.ctext _ => true
  | ColTy.ttext, Cell.cnull => true
  | ColTy.tbool, Cell.cbool _ => true
  | ColTy.tdate, Cell.cdate _ => true
  | ColTy.tdate, Cell.cnull => true
  | ColTy.tdatetime, Cell.cdatetime _ => true
  | ColTy.tdatetime, Cell.cnull => true
  | _, _ => false

/-- Named, typed column of the abstract dataset. -/
structure Column where
  name : String
  ty : ColTy
  cells : List Cell
deriving Repr

/-! ### Python string formatting helpers

Both backends format cells through the same Python format machinery:
integers with format spec ",", floats with ",.2f", datetimes with
strftime.  These helpers model those library calls. -/

/-- Digits of n in base 10, most significant first, as characters. -/
def natDigits (n : Nat) : List Char :=
  (Nat.toDigits 10 n)

/-- Insert a comma between every group of three digits, counting from the
right, as the Python thousands-separator format spec does. -/
def groupThousandsAux : List Char → List Char
  | [] => []
  | l =>
    let r := l.reverse
    let rec chunk : List Char → Nat → List Char
      | [], _ => []
      | c :: cs, k =>
        if k = 3 then ',' :: c :: chunk cs 1
        else c :: chunk cs (k + 1)
    (chunk r 0).reverse

/-- Render a natural number with thousands separators. -/
def groupedNat (n : Nat) : String :=
  String.mk (groupThousandsAux (natDigits n))

/-- Python format of an integer with format spec "," (thousands
separators, no decimals), as used for integer cells by both backends. -/
def pyFormatIntComma (n : Int) : String :=
  if n < 0 then "-" ++ groupedNat n.natAbs else groupedNat n.natAbs

/-- Round a rational to the nearest integer, ties to even, as the Python
float formatting of ".2f" does on the scaled value. -/
def roundHalfEven (q : Rat) : Int :=
  let f := Int.fdiv q.num (q.den : Int)
  let frac := q - (f : Rat)
  if frac < 1/2 then f
  else if 1/2 < frac then f + 1
  else if f % 2 = 0 then f else f + 1

/-- Python format of a float with format spec ",.2f" (thousands separators
in the integer part, exactly two decimal places), modelled on exact rational
values. -/
def pyFormatFloat2 (q : Rat) : String :=
  let c := roundHalfEven (q * 100)
  let sign := if c < 0 then "-" else ""
  let a := c.natAbs
  let ip := a / 100
  let fp := a % 100
  let fpS := if fp < 10 then "0" ++ toString fp else toString fp
  sign ++ groupedNat ip ++ "." ++ fpS

/-- Zero-pad a natural number to two digits. -/
def pad2 (n : Nat) : String :=
  if n < 10 then "0" ++ toString n else toString n

/-- Zero-pad a natural number to four digits. -/
def pad4 (n : Nat) : String :=
  if n < 10 then "000" ++ toString n
  else if n < 100 then "00" ++ toString n
  else if n < 1000 then "0" ++ toString n
  else toString n

/-- Result of strftime with format %Y-%m-%d. -/
def fmtDateYmd (d : Date) : String :=
  pad4 d.y ++ "-" ++ pad2 d.m ++ "-" ++ pad2 d.d

/-- Result of strftime with format %Y-%m-%d %H:%M:%S. -/
def fmtDateTimeYmdHMS (dt : DateTime) : String :=
  fmtDateYmd dt.date ++ " " ++ pad2 dt.hh ++ ":" ++ pad2 dt.mi ++ ":" ++ pad2 dt.ss

/-- Result of Python str() on a bool. -/
def pyStrBool (b : Bool) : String :=
  if b then "True" else "False"

/-! ### PandasTableModel (src/data_models.py lines 10-102)

A pandas DataFrame stores an int column as dtype int64 (cells are numpy
int64 scalars), a float column as float64 (numpy float64, null is NaN), a
text column as object (Python str, null is None), a bool column as dtype
bool (numpy bool scalars) and date or datetime data as datetime64[ns]
(cells are pandas Timestamps, null is NaT).  A pure date stored in pandas
becomes a Timestamp at midnight. -/

/-- Pandas column dtypes arising from the abstract column types. -/
inductive PdDtype where
  | int64
  | float64
  | object
  | pdbool
  | datetime64
deriving DecidableEq, Repr

/-- Scalar value as read by iloc from a pandas DataFrame. -/
inductive PdVal where
  | npInt (n : Int)
  | npFloat (q : Rat)
  | vnan
  | pstr (s : String)
  | npBool (b : Bool)
  | timestamp (dt : DateTime)
  | vnat
  | pynone
deriving DecidableEq, Repr

/-- Pandas dtype of the column representing an abstract column type. -/
def pdDtypeOf : ColTy → PdDtype
  | ColTy.tint => PdDtype.int64
  | ColTy.tfloat => PdDtype.float64
  | ColTy.ttext => PdDtype.object
  | ColTy.tbool => PdDtype.pdbool
  | ColTy.tdate => PdDtype.datetime64
  | ColTy.tdatetime => PdDtype.datetime64

/-- Pandas scalar representing an abstract cell in a column of the given
type: nulls become NaN in float columns, None in object columns and NaT in
datetime columns, and dates become midnight Timestamps. -/
def toPdVal : ColTy → Cell → PdVal
  | ColTy.tfloat, Cell.cnull => PdVal.vnan
  | ColTy.ttext, Cell.cnull => PdVal.pynone
  | _, Cell.cnull => PdVal.vnat
  | _, Cell.cint n => PdVal.npInt n
  | _, Cell.cfloat q => PdVal.npFloat q
  | _, Cell.ctext s => PdVal.pstr s
  | _, Cell.cbool b => PdVal.npBool b
  | _, Cell.cdate d => PdVal.timestamp ⟨d, 0, 0, 0⟩
  | _, Cell.cdatetime dt => PdVal.timestamp dt

/-- Result of pd.isna on a pandas scalar. -/
def pdIsna : PdVal → Bool
  | PdVal.vnan => true
  | PdVal.vnat => true
  | PdVal.pynone => true
  | _ => false

namespace PandasTableModel

/-- DisplayRole branch of PandasTableModel.data (src/data_models.py lines
28-45): null-like values show as empty string, numpy integers are formatted
with thousands separators, numpy floats with thousands separators and two
decimals, datetimes and Timestamps with strftime %Y-%m-%d %H:%M:%S, and
everything else through str(). -/
def dataDisplay (value : PdVal) : String :=
  if pdIsna value then ""
  else
    match value with
    | PdVal.npInt n => pyFormatIntComma n
    | PdVal.npFloat q => pyFormatFloat2 q
    | PdVal.timestamp dt => fmtDateTimeYmdHMS dt
    | PdVal.npBool b => pyStrBool b
    | PdVal.pstr s => s
    | _ => ""

/-- Python str() of a pandas dtype, as returned by get_column_dtype
(src/data_models.py lines 79-84) for an in-range column. -/
def get_column_dtype (dtype : PdDtype) : String :=
  match dtype with
  | PdDtype.int64 => "int64"
  | PdDtype.float64 => "float64"
  | PdDtype.object => "object"
  | PdDtype.pdbool => "bool"
  | PdDtype.datetime64 => "datetime64[ns]"

end PandasTableModel

/-! ### PolarsTableModel (src/data_models.py lines 105-238) -/

/-- Polars column dtypes arising from the abstract column types. -/
inductive PlDtype where
  | pInt64
  | pFloat64
  | pUtf8
  | pBoolean
  | pDate
  | pDatetime
deriving DecidableEq, Repr

/-- Scalar value as read by row-column indexing from a polars DataFrame;
polars has first-class nulls, returned to Python as None. -/
inductive PlVal where
  | pnull
  | pint (n : Int)
  | pfloat (q : Rat)
  | putf8 (s : String)
  | pbool (b : Bool)
  | pdate (d : Date)
  | pdatetime (dt : DateTime)
deriving DecidableEq, Repr

/-- Polars dtype of the column representing an abstract column type. -/
def plDtypeOf : ColTy → PlDtype
  | ColTy.tint => PlDtype.pInt64
  | ColTy.tfloat => PlDtype.pFloat64
  | ColTy.ttext => PlDtype.pUtf8
  | ColTy.tbool => PlDtype.pBoolean
  | ColTy.tdate => PlDtype.pDate
  | ColTy.tdatetime => PlDtype.pDatetime

/-- Polars scalar representing an abstract cell. -/
def toPlVal : Cell → PlVal
  | Cell.cnull => PlVal.pnull
  | Cell.cint n => PlVal.pint n
  | Cell.cfloat q => PlVal.pfloat q
  | Cell.ctext s => PlVal.putf8 s
  | Cell.cbool b => PlVal.pbool b
  | Cell.cdate d => PlVal.pdate d
  | Cell.cdatetime dt => PlVal.pdatetime dt

/-- Python str() of a polars dtype, as tested by substring in
get_column_dtype.  The Datetime repr carries its unit parameters; only the
substrings Int, Float and Date matter to the code. -/
def plDtypeStr : PlDtype → String
  | PlDtype.pInt64 => "Int64"
  | PlDtype.pFloat64 => "Float64"
  | PlDtype.pUtf8 => "String"
  | PlDtype.pBoolean => "Boolean"
  | PlDtype.pDate => "Date"
  | PlDtype.pDatetime => "Datetime(time_unit=us, time_zone=None)"

/-- Boolean test that the first character list occurs as a contiguous
infix of the second. -/
def listIsInfix (needle : List Char) : List Char → Bool
  | [] => needle.isEmpty
  | c :: cs => needle.isPrefixOf (c :: cs) || listIsInfix needle cs

/-- Boolean substring containment, modelling the Python in operator on
strings. -/
def strContains (hay needle : String) : Bool :=
  listIsInfix needle.toList hay.toList

namespace PolarsTableModel

/-- DisplayRole branch of PolarsTableModel.data (src/data_models.py lines
123-147): None shows as empty string, then formatting dispatches on the
column dtype — integer dtypes with thousands separators, float dtypes with
thousands separators and two decimals, Date with %Y-%m-%d, Datetime with
%Y-%m-%d %H:%M:%S, everything else through str(). -/
def dataDisplay (dtype : PlDtype) (value : PlVal) : String :=
  match value with
  | PlVal.pnull => ""
  | v =>
    match dtype with
    | PlDtype.pInt64 =>
      match v with
      | PlVal.pint n => pyFormatIntComma n
      | _ => ""
    | PlDtype.pFloat64 =>
      match v with
      | PlVal.pfloat q => pyFormatFloat2 q
      | _ => ""
    | PlDtype.pDate =>
      match v with
      | PlVal.pdate d => fmtDateYmd d
      | _ => ""
    | PlDtype.pDatetime =>
      match v with
      | PlVal.pdatetime dt => fmtDateTimeYmdHMS dt
      | _ => ""
    | _ =>
      match v with
      | PlVal.putf8 s => s
      | PlVal.pbool b => pyStrBool b
      | _ => ""

/-- Normalized dtype tag returned by PolarsTableModel.get_column_dtype
(src/data_models.py lines 206-220) for an in-range column: the str() of the
polars dtype is tested for the substrings Int or UInt, Float, and Date, in
that order, mapping to int64, float64 and datetime64[ns]; otherwise the tag
is object. -/
def get_column_dtype (dtype : PlDtype) : String :=
  let s := plDtypeStr dtype
  if strContains s "Int" || strContains s "UInt" then "int64"
  else if strContains s "Float" then "float64"
  else if strContains s "Date" then "datetime64[ns]"
  else "object"

end PolarsTableModel

/-! ### Python number and date parsing used by the filter evaluator -/

/-- Numeric value of a list of decimal digit characters. -/
def digitsVal (cs : List Char) : Nat :=
  cs.foldl (fun a c => a * 10 + (c.toNat - 48)) 0

/-- Powers of ten. -/
def pow10 : Nat → Nat
  | 0 => 1
  | n + 1 => 10 * pow10 n

/-- Drop leading and trailing whitespace characters. -/
def trimChars (cs : List Char) : List Char :=
  ((cs.dropWhile Char.isWhitespace).reverse.dropWhile Char.isWhitespace).reverse

/-- Result of the Python replace of every comma by the empty string, as
the range filter applies before parsing. -/
def removeCommas (s : String) : String :=
  String.mk (s.toList.filter (fun c => !(c = ',')))

/-- Result of the Python lower() method on the character sets this program
handles. -/
def strToLower (s : String) : String :=
  String.mk (s.toList.map Char.toLower)

/-- Split a character list at every occurrence of the separator. -/
def splitOnCharAux (sep : Char) : List Char → List Char → List (List Char)
  | [], acc => [acc.reverse]
  | c :: cs, acc =>
    if c = sep then acc.reverse :: splitOnCharAux sep cs []
    else splitOnCharAux sep cs (c :: acc)

/-- Split a string at every occurrence of a separator character, as the
Python split of strptime field scanning behaves on single-character
separators. -/
def splitOnChar (s : String) (sep : Char) : List String :=
  (splitOnCharAux sep s.toList []).map String.mk

/-- Parse a nonempty all-digit character list as a natural number. -/
def toNatDigits (cs : List Char) : Option Nat :=
  if !cs.isEmpty && cs.all Char.isDigit then some (digitsVal cs) else none

/-- Mantissa of a Python float literal: digits with at most one decimal
point and at least one digit. -/
def pyFloatBody (body : List Char) : Option Rat :=
  let ip := body.takeWhile (fun c => !(c = '.'))
  match body.drop ip.length with
  | [] =>
    if !ip.isEmpty && ip.all Char.isDigit then some ((digitsVal ip : Nat) : Rat)
    else none
  | _ :: fp =>
    if ip.all Char.isDigit && fp.all Char.isDigit && !(ip.isEmpty && fp.isEmpty) then
      some (((digitsVal ip : Nat) : Rat) + ((digitsVal fp : Nat) : Rat) / ((pow10 fp.length : Nat) : Rat))
    else none

/-- Python float() applied to a string, modelled for plain decimal
literals: optional surrounding whitespace, optional sign, digits with an
optional single decimal point.  Exponent, infinity and nan literals are
outside the inputs this program's filters receive and are not modelled;
every string they would reject is rejected here too. -/
def pyFloat (s : String) : Option Rat :=
  match trimChars s.toList with
  | '-' :: rest => (pyFloatBody rest).map (fun q => -q)
  | '+' :: rest => pyFloatBody rest
  | cs => pyFloatBody cs

/-- Leap-year test of the Gregorian calendar. -/
def isLeap (y : Nat) : Bool :=
  (y % 4 = 0 && !(y % 100 = 0)) || y % 400 = 0

/-- Number of days of month m of year y. -/
def daysInMonth (y m : Nat) : Nat :=
  if m = 2 then (if isLeap y then 29 else 28)
  else if m = 4 || m = 6 || m = 9 || m = 11 then 30
  else 31

/-- Parse a strptime %Y field: exactly four digits, year at least 1 (the
datetime constructor rejects year zero). -/
def parseYear4 (s : String) : Option Nat :=
  match toNatDigits s.toList with
  | some v => if s.length = 4 && 1 ≤ v then some v else none
  | none => none

/-- Parse a one-or-two-digit strptime numeric field constrained to the
closed interval from lo to hi. -/
def parseField2 (lo hi : Nat) (s : String) : Option Nat :=
  match toNatDigits s.toList with
  | some v => if s.length ≤ 2 && lo ≤ v && v ≤ hi then some v else none
  | none => none

/-- Construct a calendar date, validating the day against the month as the
datetime constructor does. -/
def mkDate (y m d : Nat) : Option Date :=
  if 1 ≤ d && d ≤ daysInMonth y m then some ⟨y, m, d⟩ else none

/-- Parse the %Y-%m-%d portion common to the first two date formats. -/
def strptimeDatePart (s : String) : Option Date :=
  match splitOnChar s '-' with
  | [ys, ms, ds] =>
    match parseYear4 ys, parseField2 1 12 ms, parseField2 1 31 ds with
    | some y, some m, some d => mkDate y m d
    | _, _, _ => none
  | _ => none

/-- Parse a %H:%M:%S time portion. -/
def strptimeTimePart (s : String) : Option (Nat × Nat × Nat) :=
  match splitOnChar s ':' with
  | [hs, ms, ss] =>
    match parseField2 0 23 hs, parseField2 0 59 ms, parseField2 0 59 ss with
    | some h, some mi, some sec => some (h, mi, sec)
    | _, _, _ => none
  | _ => none

/-- Result of datetime.strptime with format %Y-%m-%d %H:%M:%S. -/
def strptimeYmdHMS (s : String) : Option DateTime :=
  match splitOnChar s ' ' with
  | [dp, tp] =>
    match strptimeDatePart dp, strptimeTimePart tp with
    | some d, some t => some ⟨d, t.1, t.2.1, t.2.2⟩
    | _, _ => none
  | _ => none

/-- Result of datetime.strptime with format %Y-%m-%d; the time component
of the resulting datetime is midnight. -/
def strptimeYmd (s : String) : Option DateTime :=
  (strptimeDatePart s).map (fun d => ⟨d, 0, 0, 0⟩)

/-- Result of datetime.strptime with format %d.%m.%Y. -/
def strptimeDmY (s : String) : Option DateTime :=
  match splitOnChar s '.' with
  | [ds, ms, ys] =>
    match parseField2 1 31 ds, parseField2 1 12 ms, parseYear4 ys with
    | some d, some m, some y => (mkDate y m d).map (fun dd => ⟨dd, 0, 0, 0⟩)
    | _, _, _ => none
  | _ => none

/-- Loop of src/data_models.py lines 311-318: try the three date formats
in order, the first successful parse wins, and if the loop completes
without a break the value is unparsable. -/
def parseDateAny (s : String) : Option DateTime :=
  match strptimeYmdHMS s with
  | some dt => some dt
  | none =>
    match strptimeYmd s with
    | some dt => some dt
    | none => strptimeDmY s

/-! ### SortFilterProxyModel (src/data_models.py lines 241-338) -/

/-- Python scalar stored in a filter descriptor field; the value key of a
text descriptor is expected to be a string but nothing enforces it. -/
inductive PyVal where
  | vstr (s : String)
  | vint (n : Int)
  | vnone
deriving DecidableEq, Repr

/-- Exceptions the evaluator can raise. -/
inductive PyErr where
  | attributeError
  | typeError
  | valueError
  | indexError
deriving DecidableEq, Repr

/-- Python float extended with the infinities, the domain of the range
bounds after the code substitutes -inf and +inf for missing keys. -/
inductive PyFloatExt where
  | ninf
  | fin (q : Rat)
  | pinf
deriving DecidableEq, Repr

/-- Boolean rendering of the comparison a <= b on floats extended with the
infinities. -/
def PyFloatExt.leb : PyFloatExt → PyFloatExt → Bool
  | PyFloatExt.ninf, _ => true
  | _, PyFloatExt.pinf => true
  | PyFloatExt.fin a, PyFloatExt.fin b => a ≤ b
  | PyFloatExt.pinf, _ => false
  | PyFloatExt.fin _, PyFloatExt.ninf => false

/-- Filter descriptor, keyed by its type field.  Option encodes presence
of the optional dictionary keys.  fother stands for any descriptor whose
type is none of range, text, date and bool, for which the evaluator falls
through to its final return True. -/
inductive FilterData where
  | frange (minv maxv : Option Rat)
  | ftext (value : PyVal)
  | fdate (dfrom dto : Option Date)
  | fbool (value : Option Bool)
  | fother
deriving DecidableEq, Repr

/-- Tokens accepted as true by the bool filter. -/
def trueTokens : List String := ["true", "1", "да", "yes"]

/-- Tokens accepted as false by the bool filter. -/
def falseTokens : List String := ["false", "0", "нет", "no"]

namespace SortFilterProxyModel

/-- Body of SortFilterProxyModel.apply_filter (src/data_models.py lines
281-338) as a computation in an exception monad.  Parse failures of the
cell value under the range and date branches are caught by the inner
try-except blocks and yield ok false; a missing date bound makes the
chained comparison with None raise TypeError, which the inner except of
the date branch also catches, yielding ok false; calling lower() on a
non-string text descriptor value raises AttributeError, which no inner
handler catches, so it escapes to the outer handler. -/
def applyFilterE (value : String) (fd : FilterData) : Except PyErr Bool :=
  match fd with
  | FilterData.frange minv maxv =>
    let lo := match minv with
      | some m => PyFloatExt.fin m
      | none => PyFloatExt.ninf
    let hi := match maxv with
      | some m => PyFloatExt.fin m
      | none => PyFloatExt.pinf
    match pyFloat (removeCommas value) with
    | some v => Except.ok (lo.leb (PyFloatExt.fin v) && (PyFloatExt.fin v).leb hi)
    | none => Except.ok false
  | FilterData.ftext tv =>
    match tv with
    | PyVal.vstr s =>
      let search := strToLower s
      if search = "" then Except.ok true
      else Except.ok (strContains (strToLower value) search)
    | _ => Except.error PyErr.attributeError
  | FilterData.fdate dfrom dto =>
    match parseDateAny value with
    | none => Except.ok false
    | some dv =>
      match dfrom, dto with
      | some f, some t => Except.ok (f.leb dv.date && dv.date.leb t)
      | _, _ => Except.ok false
  | FilterData.fbool bv =>
    match bv with
    | some true => Except.ok (trueTokens.contains (strToLower value))
    | some false => Except.ok (falseTokens.contains (strToLower value))
    | none => Except.ok true
  | FilterData.fother => Except.ok true

/-- SortFilterProxyModel.apply_filter: the outer try-except turns any
exception that escapes the branch bodies into a pass (return True). -/
def apply_filter (value : String) (fd : FilterData) : Bool :=
  match applyFilterE value fd with
  | Except.ok b => b
  | Except.error _ => true

end SortFilterProxyModel

/-- Read-only view of a source model as the proxy uses it: header labels,
display strings and the row and column counts. -/
structure SourceModel where
  colCount : Nat
  header : Nat → String
  display : Nat → Nat → String
  rowCount : Nat

namespace SortFilterProxyModel

/-- Column-index scan of src/data_models.py lines 262-266: the first
column whose horizontal header equals the filter key, if any. -/
def findColIndex (sm : SourceModel) (name : String) : Option Nat :=
  (List.range sm.colCount).find? (fun i => sm.header i == name)

/-- SortFilterProxyModel.filterAcceptsRow (src/data_models.py lines
253-279): iterate the filter dictionary; a key matching no header is
skipped; the first failing predicate rejects the row; otherwise the row is
accepted. -/
def filterAcceptsRow (sm : SourceModel) (row : Nat) : List (String × FilterData) → Bool
  | [] => true
  | (name, fd) :: rest =>
    match findColIndex sm name with
    | none => filterAcceptsRow sm row rest
    | some i =>
      if apply_filter (sm.display row i) fd then filterAcceptsRow sm row rest
      else false

/-- Number of source rows the proxy exposes: those accepted by
filterAcceptsRow. -/
def visibleRowCount (sm : SourceModel) (filters : List (String × FilterData)) : Nat :=
  ((List.range sm.rowCount).filter (fun r => filterAcceptsRow sm r filters)).length

end SortFilterProxyModel

/-! ### The sort methods (src/data_models.py lines 86-98 and 222-234)

Both sort methods have the same shape: emit layoutAboutToBeChanged, look
up the column name in the column list (an IndexError here is not guarded),
call the backend library sort inside a try-except that swallows every
exception, then emit layoutChanged.  The backend library call itself lives
outside this repository, so its outcome is a parameter: either a reordered
dataset or an exception. -/

/-- Qt signals the sort methods emit. -/
inductive Signal where
  | layoutAboutToBeChanged
  | layoutChanged
deriving DecidableEq, Repr

/-- Result of a call to a sort method: the dataset afterwards, the signals
emitted in order, and the exception that propagated to the caller, if
any. -/
structure SortOutcome where
  data : List Column
  signals : List Signal
  raised : Option PyErr
deriving Repr

namespace PandasTableModel

/-- PandasTableModel.sort: the column-name lookup raises IndexError for an
out-of-range column after the first signal; otherwise the library call
outcome is consumed by the try-except, leaving the dataset unchanged on
error, and the second signal is emitted. -/
def sortModel (df : List Column) (column : Nat) (ascending : Bool)
    (lib : Except PyErr (List Column)) : SortOutcome :=
  if column < df.length then
    match lib with
    | Except.ok d2 => ⟨d2, [Signal.layoutAboutToBeChanged, Signal.layoutChanged], none⟩
    | Except.error _ => ⟨df, [Signal.layoutAboutToBeChanged, Signal.layoutChanged], none⟩
  else
    ⟨df, [Signal.layoutAboutToBeChanged], some PyErr.indexError⟩

end PandasTableModel

namespace PolarsTableModel

/-- PolarsTableModel.sort, structurally identical to the pandas variant
(the direction flag is named descending there). -/
def sortModel (df : List Column) (column : Nat) (descending : Bool)
    (lib : Except PyErr (List Column)) : SortOutcome :=
  if column < df.length then
    match lib with
    | Except.ok d2 => ⟨d2, [Signal.layoutAboutToBeChanged, Signal.layoutChanged], none⟩
    | Except.error _ => ⟨df, [Signal.layoutAboutToBeChanged, Signal.layoutChanged], none⟩
  else
    ⟨df, [Signal.layoutAboutToBeChanged], some PyErr.indexError⟩

end PolarsTableModel

/-! ### BackgroundRole branches (src/data_models.py lines 54-62 and
160-182) -/

/-- Color value as constructed by the QColor(red, green, blue) calls. -/
structure QColor where
  r : Nat
  g : Nat
  b : Nat
deriving DecidableEq, Repr

/-- Floor of a rational number, written through floor division of the
numerator by the denominator so it evaluates by computation.  The Python
int() conversion truncates toward zero, which agrees with the floor on the
nonnegative normalized values these branches produce. -/
def ratFloor (q : Rat) : Int :=
  Int.fdiv q.num (q.den : Int)

/-- Absolute value of a rational, as the Python abs builtin computes. -/
def ratAbs (q : Rat) : Rat :=
  if q < 0 then -q else q

/-- Shared tail of both BackgroundRole branches: red is 255 times the
normalized value, truncated and clamped to 255 (the Python min of 255 and
int of 255 times normalized); green is fixed at 200; blue is 255 minus
red. -/
def lerpRedBlue (t : Rat) : QColor :=
  let scaled := Int.toNat (ratFloor (255 * t))
  let red := if 255 ≤ scaled then 255 else scaled
  ⟨red, 200, 255 - red⟩

/-- Maximum of a list of rationals, none when empty, as the backend max
reductions behave after nulls are dropped. -/
def ratMaxList : List Rat → Option Rat
  | [] => none
  | x :: xs => some (xs.foldl (fun a y => if a ≤ y then y else a) x)

/-- Minimum of a list of rationals, none when empty. -/
def ratMinList : List Rat → Option Rat
  | [] => none
  | x :: xs => some (xs.foldl (fun a y => if y ≤ a then y else a) x)

/-- Absolute numeric value of a pandas scalar; NaN and non-numeric
scalars contribute nothing to the abs-max reduction. -/
def pdNumAbs : PdVal → Option Rat
  | PdVal.npFloat q => some (ratAbs q)
  | PdVal.npInt n => some (ratAbs ((n : Rat)))
  | _ => none

namespace PandasTableModel

/-- BackgroundRole branch of PandasTableModel.data: only values that are
Python int or float instances and not NaN are colored — numpy float64 is a
float subclass, numpy int64 is not an int subclass, so of the scalars a
typed pandas column yields only npFloat qualifies.  The value is
normalized as its absolute value over the column abs-maximum plus 1e-9. -/
def backgroundRole (colVals : List PdVal) (row : Nat) : Option QColor :=
  match colVals[row]? with
  | none => none
  | some value =>
    match value with
    | PdVal.npFloat q =>
      match ratMaxList (colVals.filterMap pdNumAbs) with
      | none => none
      | some mx => some (lerpRedBlue (ratAbs q / (mx + 1 / 1000000000)))
    | _ => none

end PandasTableModel

/-- Numeric value of a polars scalar, none for null. -/
def plToRat : PlVal → Option Rat
  | PlVal.pint n => some ((n : Rat))
  | PlVal.pfloat q => some q
  | _ => none

namespace PolarsTableModel

/-- BackgroundRole branch of PolarsTableModel.data: for a numeric-dtype
column and a non-null value, the column maximum and minimum are computed;
when they differ the value is normalized as (value - min) / (max - min)
and colored; when they are equal the branch falls through and the method
returns None — no color hint. -/
def backgroundRole (dtype : PlDtype) (vals : List PlVal) (row : Nat) : Option QColor :=
  match vals[row]? with
  | none => none
  | some value =>
    if dtype = PlDtype.pInt64 || dtype = PlDtype.pFloat64 then
      match plToRat value with
      | none => none
      | some v =>
        match ratMaxList (vals.filterMap plToRat), ratMinList (vals.filterMap plToRat) with
        | some mx, some mn =>
          if mx ≠ mn then some (lerpRedBlue ((v - mn) / (mx - mn)))
          else none
        | _, _ => none
    else none

end PolarsTableModel

/-! ### Claims -/

/-- Concrete boolean column, representable in both backends. -/
def demoBoolColumn : Column := ⟨"flag", ColTy.tbool, [Cell.cbool true]⟩

/-- C1 fails as stated: on the dataset consisting of the single boolean
column demoBoolColumn, the pandas model's get_column_dtype returns the tag
bool while the polars model normalizes Boolean to object, so the two
backends do not return identical normalized type tags for every column;
and the date cell 2024-01-02 displays as 2024-01-02 00:00:00 under pandas
(a midnight Timestamp) but as 2024-01-02 under polars, so the display
strings are not identical for every cell either. -/
theorem C1_counterexample :
    PandasTableModel.get_column_dtype (pdDtypeOf demoBoolColumn.ty) ≠
      PolarsTableModel.get_column_dtype (plDtypeOf demoBoolColumn.ty)
    ∧ PandasTableModel.dataDisplay (toPdVal ColTy.tdate (Cell.cdate ⟨2024, 1, 2⟩)) ≠
      PolarsTableModel.dataDisplay (plDtypeOf ColTy.tdate) (toPlVal (Cell.cdate ⟨2024, 1, 2⟩)) := by
  refine ⟨by decide, by decide⟩

set_option maxHeartbeats 1600000 in
/-- C1 (amended): for every cell representable in both backends, the two
models return identical normalized type tags on every non-boolean column
and identical display strings on every non-date column; a boolean column
displays identically but its type tags differ (bool versus object), and a
pure date column types identically but pandas displays it with a midnight
time suffix. -/
theorem C1_backend_equivalence (ty : ColTy) (cell : Cell) (h : cellOk ty cell = true) :
    (ty ≠ ColTy.tbool →
      PandasTableModel.get_column_dtype (pdDtypeOf ty) =
        PolarsTableModel.get_column_dtype (plDtypeOf ty))
    ∧ (ty ≠ ColTy.tdate →
      PandasTableModel.dataDisplay (toPdVal ty cell) =
        PolarsTableModel.dataDisplay (plDtypeOf ty) (toPlVal cell)) := by
  cases ty <;> cases cell <;>
    first
      | exact ⟨fun _ => rfl, fun _ => rfl⟩
      | exact ⟨fun hne => (hne rfl).elim, fun _ => rfl⟩
      | exact ⟨fun _ => rfl, fun hne => (hne rfl).elim⟩
      | exact nomatch h

/-- Witness of C1_backend_equivalence at an integer cell. -/
theorem C1_backend_equivalence_witness :
    (ColTy.tint ≠ ColTy.tbool →
      PandasTableModel.get_column_dtype (pdDtypeOf ColTy.tint) =
        PolarsTableModel.get_column_dtype (plDtypeOf ColTy.tint))
    ∧ (ColTy.tint ≠ ColTy.tdate →
      PandasTableModel.dataDisplay (toPdVal ColTy.tint (Cell.cint 1234)) =
        PolarsTableModel.dataDisplay (plDtypeOf ColTy.tint) (toPlVal (Cell.cint 1234))) :=
  C1_backend_equivalence ColTy.tint (Cell.cint 1234) (by decide)

/-- C2: a source row passes the filter proxy exactly when it satisfies
every predicate of the specification whose column name resolves to a
header label, and with an empty specification the visible row count equals
the source row count. -/
theorem C2_filterAcceptsRow_conjunction (sm : SourceModel)
    (fs : List (String × FilterData)) (row : Nat) :
    (SortFilterProxyModel.filterAcceptsRow sm row fs = true ↔
      ∀ p ∈ fs, ∀ i, SortFilterProxyModel.findColIndex sm p.1 = some i →
        SortFilterProxyModel.apply_filter (sm.display row i) p.2 = true)
    ∧ SortFilterProxyModel.visibleRowCount sm [] = sm.rowCount := by
  constructor
  · induction fs with
    | nil => simp [SortFilterProxyModel.filterAcceptsRow]
    | cons hd tl ih =>
      obtain ⟨name, fd⟩ := hd
      rw [SortFilterProxyModel.filterAcceptsRow]
      cases hfind : SortFilterProxyModel.findColIndex sm name with
      | none => simpa [hfind] using ih
      | some i =>
        cases happ : SortFilterProxyModel.apply_filter (sm.display row i) fd with
        | true => simpa [hfind, happ] using ih
        | false =>
          simp only [happ, if_false]
          constructor
          · intro hcontra; exact absurd hcontra (by simp)
          · intro hall
            have := hall (name, fd) (by simp) i hfind
            rw [happ] at this
            exact absurd this (by simp)
  · simp [SortFilterProxyModel.visibleRowCount, SortFilterProxyModel.filterAcceptsRow]

/-- Witness of C2_filterAcceptsRow_conjunction on a concrete two-column,
three-row source model with no filters. -/
theorem C2_filterAcceptsRow_witness :
    (SortFilterProxyModel.filterAcceptsRow
        ⟨2, fun i => if i = 0 then "name" else "value", fun r i => toString (r + i), 3⟩ 0 [] = true ↔
      ∀ p ∈ ([] : List (String × FilterData)), ∀ i,
        SortFilterProxyModel.findColIndex
          ⟨2, fun i => if i = 0 then "name" else "value", fun r i => toString (r + i), 3⟩ p.1 = some i →
        SortFilterProxyModel.apply_filter
          (SourceModel.display
            ⟨2, fun i => if i = 0 then "name" else "value", fun r i => toString (r + i), 3⟩ 0 i) p.2 = true)
    ∧ SortFilterProxyModel.visibleRowCount
        ⟨2, fun i => if i = 0 then "name" else "value", fun r i => toString (r + i), 3⟩ [] =
      SourceModel.rowCount
        ⟨2, fun i => if i = 0 then "name" else "value", fun r i => toString (r + i), 3⟩ :=
  C2_filterAcceptsRow_conjunction
    ⟨2, fun i => if i = 0 then "name" else "value", fun r i => toString (r + i), 3⟩ [] 0

/-- C4: the range filter parses the displayed string as a float after
stripping commas and accepts exactly the values between the inclusive
bounds; a non-parsable string is rejected by the predicate; on the
displayed values 3, 5, 7, 10, 12 the bounds 5 and 10 keep exactly 5, 7 and
10. -/
theorem C4_range_filter (value : String) (minq maxq v : Rat) :
    (pyFloat (removeCommas value) = some v →
      SortFilterProxyModel.apply_filter value (FilterData.frange (some minq) (some maxq)) =
        (decide (minq ≤ v) && decide (v ≤ maxq)))
    ∧ (pyFloat (removeCommas value) = none →
      SortFilterProxyModel.apply_filter value (FilterData.frange (some minq) (some maxq)) = false)
    ∧ ["3", "5", "7", "10", "12"].filter
        (fun s => SortFilterProxyModel.apply_filter s (FilterData.frange (some 5) (some 10))) =
      ["5", "7", "10"] := by
  refine ⟨fun h => ?_, fun h => ?_, by decide⟩
  · simp [SortFilterProxyModel.apply_filter, SortFilterProxyModel.applyFilterE, h, PyFloatExt.leb]
  · simp [SortFilterProxyModel.apply_filter, SortFilterProxyModel.applyFilterE, h]

/-- Witness of C4_range_filter at the displayed value 7 with bounds 5 and
10. -/
theorem C4_range_filter_witness :
    SortFilterProxyModel.apply_filter "7" (FilterData.frange (some 5) (some 10)) =
      (decide ((5 : Rat) ≤ 7) && decide ((7 : Rat) ≤ 10)) :=
  (C4_range_filter "7" 5 10 7).1 (by decide)

/-- C10: a range descriptor missing its min key receives negative infinity
as lower bound and one missing its max key receives positive infinity, so
an absent bound never constrains a parsable value. -/
theorem C10_missing_bounds (value : String) (b v : Rat)
    (h : pyFloat (removeCommas value) = some v) :
    (SortFilterProxyModel.apply_filter value (FilterData.frange none (some b)) = decide (v ≤ b))
    ∧ (SortFilterProxyModel.apply_filter value (FilterData.frange (some b) none) = decide (b ≤ v))
    ∧ SortFilterProxyModel.apply_filter value (FilterData.frange none none) = true := by
  refine ⟨?_, ?_, ?_⟩ <;>
    simp [SortFilterProxyModel.apply_filter, SortFilterProxyModel.applyFilterE, h, PyFloatExt.leb]

/-- C5: the failure handling of apply_filter is asymmetric — a parse
failure of the cell value under a range or date predicate returns False
(fail closed), while any exception escaping a branch body is consumed by
the outer handler, which returns True (fail open). -/
theorem C5_failure_asymmetry (value : String) (minv maxv : Option Rat)
    (dfrom dto : Option Date) (fd : FilterData) (e : PyErr) :
    (pyFloat (removeCommas value) = none →
      SortFilterProxyModel.apply_filter value (FilterData.frange minv maxv) = false)
    ∧ (parseDateAny value = none →
      SortFilterProxyModel.apply_filter value (FilterData.fdate dfrom dto) = false)
    ∧ (SortFilterProxyModel.applyFilterE value fd = Except.error e →
      SortFilterProxyModel.apply_filter value fd = true) := by
  refine ⟨fun h => ?_, fun h => ?_, fun h => ?_⟩
  · simp [SortFilterProxyModel.apply_filter, SortFilterProxyModel.applyFilterE, h]
  · simp [SortFilterProxyModel.apply_filter, SortFilterProxyModel.applyFilterE, h]
  · simp [SortFilterProxyModel.apply_filter, h]

/-- Witness of C5_failure_asymmetry: a text descriptor carrying an
integer value raises AttributeError inside the evaluation and the row is
retained. -/
theorem C5_failure_asymmetry_witness :
    SortFilterProxyModel.apply_filter "North" (FilterData.ftext (PyVal.vint 5)) = true :=
  (C5_failure_asymmetry "North" none none none none (FilterData.ftext (PyVal.vint 5))
    PyErr.attributeError).2.2 rfl

/-- C6: when the backend reorder raises, both sort methods catch the
exception locally, the dataset is returned exactly unchanged, and no
exception propagates to the caller. -/
theorem C6_sort_error_preserves_data (df : List Column) (column : Nat) (flag : Bool)
    (e : PyErr) (h : column < df.length) :
    PandasTableModel.sortModel df column flag (Except.error e) =
      ⟨df, [Signal.layoutAboutToBeChanged, Signal.layoutChanged], none⟩
    ∧ PolarsTableModel.sortModel df column flag (Except.error e) =
      ⟨df, [Signal.layoutAboutToBeChanged, Signal.layoutChanged], none⟩ := by
  constructor <;> simp [PandasTableModel.sortModel, PolarsTableModel.sortModel, h]

/-- Witness of C6_sort_error_preserves_data on a one-column dataset whose
library sort raises. -/
theorem C6_sort_error_preserves_data_witness :
    PandasTableModel.sortModel [demoBoolColumn] 0 true (Except.error PyErr.valueError) =
      ⟨[demoBoolColumn], [Signal.layoutAboutToBeChanged, Signal.layoutChanged], none⟩
    ∧ PolarsTableModel.sortModel [demoBoolColumn] 0 true (Except.error PyErr.valueError) =
      ⟨[demoBoolColumn], [Signal.layoutAboutToBeChanged, Signal.layoutChanged], none⟩ :=
  C6_sort_error_preserves_data [demoBoolColumn] 0 true PyErr.valueError (by decide)

/-- C7: a string cell under a date predicate is parsed trying the formats
%Y-%m-%d %H:%M:%S, %Y-%m-%d and %d.%m.%Y in that order, the first success
winning; when no format succeeds the row is excluded; when one succeeds
the row is accepted exactly when the parsed calendar date lies between the
bounds inclusively, the time component discarded. -/
theorem C7_date_filter (s : String) (dt : DateTime) (f t : Date) :
    (strptimeYmdHMS s = some dt → parseDateAny s = some dt)
    ∧ (strptimeYmdHMS s = none → strptimeYmd s = some dt → parseDateAny s = some dt)
    ∧ (strptimeYmdHMS s = none → strptimeYmd s = none → parseDateAny s = strptimeDmY s)
    ∧ (parseDateAny s = none →
      SortFilterProxyModel.apply_filter s (FilterData.fdate (some f) (some t)) = false)
    ∧ (parseDateAny s = some dt →
      SortFilterProxyModel.apply_filter s (FilterData.fdate (some f) (some t)) =
        (f.leb dt.date && dt.date.leb t)) := by
  refine ⟨fun h1 => ?_, fun h1 h2 => ?_, fun h1 h2 => ?_, fun h => ?_, fun h => ?_⟩
  · simp [parseDateAny, h1]
  · simp [parseDateAny, h1, h2]
  · simp [parseDateAny, h1, h2]
  · simp [SortFilterProxyModel.apply_filter, SortFilterProxyModel.applyFilterE, h]
  · simp [SortFilterProxyModel.apply_filter, SortFilterProxyModel.applyFilterE, h]

/-- Witness of C7_date_filter: a datetime-formatted March 5 value between
January 1 and December 31 of 2024. -/
theorem C7_date_filter_witness :
    SortFilterProxyModel.apply_filter "2024-03-05 10:20:30"
        (FilterData.fdate (some ⟨2024, 1, 1⟩) (some ⟨2024, 12, 31⟩)) =
      (Date.leb ⟨2024, 1, 1⟩ ⟨2024, 3, 5⟩ && Date.leb ⟨2024, 3, 5⟩ ⟨2024, 12, 31⟩) :=
  (C7_date_filter "2024-03-05 10:20:30" ⟨⟨2024, 3, 5⟩, 10, 20, 30⟩ ⟨2024, 1, 1⟩
    ⟨2024, 12, 31⟩).2.2.2.2 (by decide)

unseal Rat.add Rat.mul Rat.inv Rat.sub in
/-- C8 fails as stated: on the zero-range polars column holding 5 and 5,
the model returns no background color at all instead of a neutral midpoint
color, and on the pandas float column holding 0 and 10 the value 10
receives the color of its absolute value normalized by the column absolute
maximum plus 1e-9 — red 254 — not the min-max interpolation at the top of
the range, whose red is 255. -/
theorem C8_counterexample :
    PolarsTableModel.backgroundRole PlDtype.pInt64 [PlVal.pint 5, PlVal.pint 5] 0 = none
    ∧ PandasTableModel.backgroundRole [PdVal.npFloat 0, PdVal.npFloat 10] 1 =
      some ⟨254, 200, 1⟩
    ∧ lerpRedBlue 1 = ⟨255, 200, 0⟩ := by
  refine ⟨by decide, by decide, by decide⟩

/-- C8 (amended): the polars model colors a numeric non-null cell by
interpolating (value - min) / (max - min) when the column maximum and
minimum differ and gives no color hint for a zero-range column; the pandas
model colors only float values, interpolating the absolute value over the
column absolute maximum plus 1e-9, and gives numpy integer cells no color
hint. -/
theorem C8_background_interpolation (dtype : PlDtype) (vals : List PlVal) (row : Nat)
    (w : PlVal) (v mn mx : Rat) (colVals : List PdVal) (prow : Nat) (q mxa : Rat)
    (colVals2 : List PdVal) (prow2 : Nat) (m : Int)
    (hdt : dtype = PlDtype.pInt64 ∨ dtype = PlDtype.pFloat64)
    (h1 : vals[row]? = some w) (h2 : plToRat w = some v)
    (h3 : ratMaxList (vals.filterMap plToRat) = some mx)
    (h4 : ratMinList (vals.filterMap plToRat) = some mn)
    (h5 : colVals[prow]? = some (PdVal.npFloat q))
    (h6 : ratMaxList (colVals.filterMap pdNumAbs) = some mxa)
    (h7 : colVals2[prow2]? = some (PdVal.npInt m)) :
    (mx ≠ mn → PolarsTableModel.backgroundRole dtype vals row =
      some (lerpRedBlue ((v - mn) / (mx - mn))))
    ∧ (mx = mn → PolarsTableModel.backgroundRole dtype vals row = none)
    ∧ PandasTableModel.backgroundRole colVals prow =
      some (lerpRedBlue (ratAbs q / (mxa + 1 / 1000000000)))
    ∧ PandasTableModel.backgroundRole colVals2 prow2 = none := by
  refine ⟨fun hne => ?_, fun heq => ?_, ?_, ?_⟩
  · rcases hdt with hd | hd <;> subst hd <;>
      simp [PolarsTableModel.backgroundRole, h1, h2, h3, h4, hne]
  · rcases hdt with hd | hd <;> subst hd <;>
      simp [PolarsTableModel.backgroundRole, h1, h2, h3, h4, heq]
  · simp [PandasTableModel.backgroundRole, h5, h6]
  · simp [PandasTableModel.backgroundRole, h7]

unseal Rat.add Rat.mul Rat.inv Rat.sub in
/-- Witness of C8_background_interpolation on the polars column 1, 3 at
its first row and the pandas columns 0, 10 and a lone integer 5. -/
theorem C8_background_interpolation_witness :
    (((3 : Rat) ≠ 1 → PolarsTableModel.backgroundRole PlDtype.pInt64
        [PlVal.pint 1, PlVal.pint 3] 0 = some (lerpRedBlue ((1 - 1) / (3 - 1))))
    ∧ ((3 : Rat) = 1 → PolarsTableModel.backgroundRole PlDtype.pInt64
        [PlVal.pint 1, PlVal.pint 3] 0 = none)
    ∧ PandasTableModel.backgroundRole [PdVal.npFloat 0, PdVal.npFloat 10] 0 =
      some (lerpRedBlue (ratAbs 0 / (10 + 1 / 1000000000)))
    ∧ PandasTableModel.backgroundRole [PdVal.npInt 5] 0 = none) :=
  C8_background_interpolation PlDtype.pInt64 [PlVal.pint 1, PlVal.pint 3] 0
    (PlVal.pint 1) 1 1 3 [PdVal.npFloat 0, PdVal.npFloat 10] 0 0 10
    [PdVal.npInt 5] 0 5 (Or.inl rfl) (by decide) (by decide) (by decide) (by decide)
    (by decide) (by decide) (by decide)

/-- C9 fails as stated: calling sort on an empty dataset with column index
0 raises the column lookup IndexError after the first notification, so
only layoutAboutToBeChanged is emitted and the exception propagates — the
pair is not emitted unconditionally on every call. -/
theorem C9_counterexample :
    PandasTableModel.sortModel [] 0 true (Except.ok []) =
      ⟨[], [Signal.layoutAboutToBeChanged], some PyErr.indexError⟩
    ∧ PolarsTableModel.sortModel [] 0 true (Except.ok []) =
      ⟨[], [Signal.layoutAboutToBeChanged], some PyErr.indexError⟩ :=
  ⟨rfl, rfl⟩

/-- C9 (amended): every call to sort with an in-range column index emits
layoutAboutToBeChanged before the reorder and layoutChanged after it, in
that order, whatever the outcome of the underlying library sort, and lets
no exception propagate; a call with an out-of-range column index emits
only the first notification and propagates the lookup error. -/
theorem C9_sort_signal_pair (df : List Column) (column : Nat) (flag : Bool)
    (lib : Except PyErr (List Column)) (h : column < df.length) :
    ((PandasTableModel.sortModel df column flag lib).signals =
        [Signal.layoutAboutToBeChanged, Signal.layoutChanged]
      ∧ (PandasTableModel.sortModel df column flag lib).raised = none)
    ∧ (PolarsTableModel.sortModel df column flag lib).signals =
        [Signal.layoutAboutToBeChanged, Signal.layoutChanged]
    ∧ (PolarsTableModel.sortModel df column flag lib).raised = none := by
  cases lib <;> simp [PandasTableModel.sortModel, PolarsTableModel.sortModel, h]

/-- Witness of C9_sort_signal_pair on a one-column dataset with a failing
library sort. -/
theorem C9_sort_signal_pair_witness :
    ((PandasTableModel.sortModel [demoBoolColumn] 0 true
        (Except.error PyErr.typeError)).signals =
        [Signal.layoutAboutToBeChanged, Signal.layoutChanged]
      ∧ (PandasTableModel.sortModel [demoBoolColumn] 0 true
        (Except.error PyErr.typeError)).raised = none)
    ∧ (PolarsTableModel.sortModel [demoBoolColumn] 0 true
        (Except.error PyErr.typeError)).signals =
        [Signal.layoutAboutToBeChanged, Signal.layoutChanged]
    ∧ (PolarsTableModel.sortModel [demoBoolColumn] 0 true
        (Except.error PyErr.typeError)).raised = none :=
  C9_sort_signal_pair [demoBoolColumn] 0 true (Except.error PyErr.typeError) (by decide)

/-- Witness of C10_missing_bounds at the displayed value 7 with single
bound 5. -/
theorem C10_missing_bounds_witness :
    (SortFilterProxyModel.apply_filter "7" (FilterData.frange none (some 5)) =
      decide ((7 : Rat) ≤ 5))
    ∧ (SortFilterProxyModel.apply_filter "7" (FilterData.frange (some 5) none) =
      decide ((5 : Rat) ≤ 7))
    ∧ SortFilterProxyModel.apply_filter "7" (FilterData.frange none none) = true :=
  C10_missing_bounds "7" 5 7 (by decide)

end BISystem
